import Mathlib

/-!
A shallow embedding of maturin-nix (src/main.rs), a tool that packages a
pre-built native extension artifact into Python wheel archives.

The embedding covers the compatibility-tag resolution logic and the
wheel-assembly orchestration of main.rs:

* parse_abi3 — recognising abi3 feature-flag tokens;
* get_tag_from_cargo_metadata — deriving a tag from Cargo metadata,
  with each panic site (expect / index out of bounds) modelled as a
  distinct ConfigError value;
* the build_wheel closure and the per-task loop of main, with the
  external wheel-writer collaborator passed in as explicit functions and
  a panic modelled as stopping the run;
* the interpreter-probe path, with the external discovery collaborator's
  result passed in explicitly.

Rust strings are modelled as Lean Strings, manipulated through their
character lists; str::parse::<u32> is modelled including its acceptance
of a leading plus sign and its overflow failure above 2^32 - 1.
-/

namespace MaturinNix

/-- Numeric value of a list of decimal digit characters, most significant
first, as accumulated by a base-10 parse. -/
def digitsToNat (cs : List Char) : Nat :=
  cs.foldl (fun acc c => acc * 10 + (c.toNat - 48)) 0

/-- Model of Rust str::parse::<u32>: an optional leading plus sign, then
one or more ASCII digits, with the value required to fit in a u32.  The
sort key computation in get_tag_from_cargo_metadata uses this parse. -/
def parseU32 (s : String) : Option Nat :=
  let cs :=
    match s.data with
    | '+' :: rest => rest
    | cs => cs
  if cs.length ≠ 0 ∧ cs.all Char.isDigit then
    if digitsToNat cs < 2 ^ 32 then some (digitsToNat cs) else none
  else none

/-- Model of parse_abi3 in main.rs: the exact token abi3 yields the
version string "3"; a token whose first seven characters are abi3-py
yields the remaining characters of the token (Rust strip of the marker);
every other token yields none. -/
def parse_abi3 (abi3_feature : String) : Option String :=
  if abi3_feature = "abi3" then some "3"
  else if abi3_feature.data.take 7 = "abi3-py".data then
    some (String.mk (abi3_feature.data.drop 7))
  else none

/-- A declared dependency from cargo metadata: its package name and its
enabled feature flags (the fields main.rs reads). -/
structure Dependency where
  name : String
  features : List String
  deriving DecidableEq

/-- The root package from cargo metadata: main.rs only reads its
dependency list. -/
structure Package where
  dependencies : List Dependency
  deriving DecidableEq

/-- Cargo metadata as consumed by get_tag_from_cargo_metadata: the
workspace root package, when there is one. -/
structure Metadata where
  root_package : Option Package
  deriving DecidableEq

/-- The panic sites of the manifest-driven tagging path, one error value
per expect / index panic in get_tag_from_cargo_metadata. -/
inductive ConfigError where
  | noRootPackage
  | missingPyo3
  | nonNumericVersion
  | noAbi3Flags
  deriving DecidableEq

/-- The sort_by_key key computation, as performed when the sort actually
evaluates keys: pair every collected version string with its value
parsed as u32; a parse failure is the version-string panic, modelled as
none.  Whether the sort evaluates keys at all is decided by
sortByKeyU32 below. -/
def abi3Keyed : List String → Option (List (Nat × String))
  | [] => some []
  | v :: vs =>
    match parseU32 v with
    | none => none
    | some n => (abi3Keyed vs).map (fun rest => (n, v) :: rest)

/-- The comparison underlying sort_by_key: order key-value pairs by their
numeric key. -/
def versionLE (a b : Nat × String) : Prop :=
  a.1 ≤ b.1

instance : DecidableRel versionLE :=
  fun a b => Nat.decLe a.1 b.1

instance : IsTotal (Nat × String) versionLE :=
  ⟨fun a b => Nat.le_total a.1 b.1⟩

instance : IsTrans (Nat × String) versionLE :=
  ⟨fun _ _ _ h h' => Nat.le_trans h h'⟩

/-- The sort_by_key call on the collected version strings.  Rust's
stable sort returns a slice of length below two unchanged without ever
invoking the key closure, so a lone collected token is never parsed;
on two or more elements every element's key is computed by the
comparisons, so any non-numeric token is the
parse::<u32>().expect("version string") panic, modelled as the
nonNumericVersion error.  The stable sort itself is modelled by stable
insertion sort on the keyed pairs. -/
def sortByKeyU32 (vs : List String) : Except ConfigError (List String) :=
  if vs.length < 2 then .ok vs
  else
    match abi3Keyed vs with
    | none => .error .nonNumericVersion
    | some keyed => .ok ((keyed.insertionSort versionLE).map Prod.snd)

/-- The feature-flag processing of get_tag_from_cargo_metadata: collect
the abi3 markers with parse_abi3, sort them in place by their value
parsed as u32, take the first element, and format the tag around it. -/
def tagOfFeatures (features : List String) : Except ConfigError String :=
  let abi3_versions := features.filterMap parse_abi3
  match sortByKeyU32 abi3_versions with
  | .error e => .error e
  | .ok [] => .error .noAbi3Flags
  | .ok (v :: _) => .ok ("cp" ++ v ++ "-abi3-linux_x86_64")

/-- Model of get_tag_from_cargo_metadata in main.rs: take the root
package, find the dependency named pyo3, and resolve the tag from its
feature flags. -/
def get_tag_from_cargo_metadata (cargo_metadata : Metadata) :
    Except ConfigError String :=
  match cargo_metadata.root_package with
  | none => .error .noRootPackage
  | some package =>
    match package.dependencies.find? (fun pkg => pkg.name == "pyo3") with
    | none => .error .missingPyo3
    | some pyo3_package => tagOfFeatures pyo3_package.features

/-- A wheel to be produced: its compatibility tag and the library
filename to place inside the archive. -/
structure WheelTask where
  tag : String
  so_filename : String
  deriving DecidableEq

/-- The panic sites of the build_wheel closure, one per expect. -/
inductive PackagingError where
  | writerNew
  | addFile
  | writerFinish
  deriving DecidableEq

/-- An opaque handle for an open wheel archive. -/
structure Archive where
  id : Nat
  deriving DecidableEq

/-- The external wheel-writer collaborator of build_wheel, passed in as
explicit functions; each operation may fail. -/
structure WheelWriterOps where
  new : String → Except PackagingError Archive
  add_file : Archive → String → Except PackagingError Archive
  finish : Archive → Except PackagingError String

/-- Model of the build_wheel closure in main: open a writer for the tag,
copy the artifact in under so_filename, and finalize, returning the
finalized wheel path; the first failing step aborts. -/
def build_wheel (ops : WheelWriterOps) (tag : String) (so_filename : String) :
    Except PackagingError String := do
  let writer ← ops.new tag
  let writer ← ops.add_file writer so_filename
  ops.finish writer

/-- Observable outcome of running the per-task wheel loop: the tasks the
writer was invoked on, in order; the finalized wheel paths on disk, in
order; and the error that stopped the run, if any. -/
structure AssemblyResult where
  invoked : List WheelTask
  finalized : List String
  outcome : Option PackagingError
  deriving DecidableEq

/-- The per-task loop of main: invoke the writer on each task in list
order; a failure stops the run immediately, leaving earlier finalized
wheels in place and never invoking the writer on later tasks. -/
def runTasks (w : WheelTask → Except PackagingError String) :
    List WheelTask → AssemblyResult
  | [] => ⟨[], [], none⟩
  | t :: ts =>
    match w t with
    | .ok p =>
      let r := runTasks w ts
      ⟨t :: r.invoked, p :: r.finalized, r.outcome⟩
    | .error e => ⟨[t], [], some e⟩

/-- The manylinux platform-compatibility policy; main fixes it to off
for the interpreter-probe path. -/
inductive Manylinux where
  | off
  | compliant
  deriving DecidableEq

/-- A discovered Python interpreter handle, exposing the two collaborator
methods main calls on it. -/
structure PythonInterpreter where
  get_tag : Manylinux → String
  get_library_name : String → String

/-- Failure of the external interpreter-discovery collaborator
(PythonInterpreter::find_all), whose expect aborts main. -/
inductive DiscoveryError where
  | findAllFailed
  deriving DecidableEq

/-- The task list built by the interpreter-probe loop of main: one task
per discovered interpreter, tagged with the no-manylinux policy and
named by the interpreter's library-name convention, in discovery
order. -/
def probeTasks (module_name : String)
    (python_interpreters : List PythonInterpreter) : List WheelTask :=
  python_interpreters.map
    (fun python_interpreter =>
      ⟨python_interpreter.get_tag Manylinux.off,
       python_interpreter.get_library_name module_name⟩)

/-- The interpreter-probe path of main: the discovery collaborator's
result is passed in; a discovery failure aborts (the expect on
find_all), otherwise one task per discovered interpreter is produced. -/
def probeMain (module_name : String)
    (find_all : Except DiscoveryError (List PythonInterpreter)) :
    Except DiscoveryError (List WheelTask) :=
  find_all.map (probeTasks module_name)

/-- The manifest-driven path of main up to task production: resolve the
tag from cargo metadata and emit the single task named module_name.so. -/
def manifestTasks (module_name : String) (cargo_metadata : Metadata) :
    Except ConfigError (List WheelTask) :=
  (get_tag_from_cargo_metadata cargo_metadata).map
    (fun tag => [⟨tag, module_name ++ ".so"⟩])

/-- The whole manifest-driven path of main: resolve the tag, then run the
wheel loop on the produced tasks with the given writer. -/
def manifestMain (w : WheelTask → Except PackagingError String)
    (module_name : String) (cargo_metadata : Metadata) :
    Except ConfigError AssemblyResult :=
  (manifestTasks module_name cargo_metadata).map (runTasks w)

/-- Concrete metadata fixture: a root package depending on pyo3 with
feature flags ["extension-module", "abi3-py37", "abi3-py38"]. -/
def metaPy3738 : Metadata :=
  ⟨some ⟨[⟨"pyo3", ["extension-module", "abi3-py37", "abi3-py38"]⟩]⟩⟩

/-- Concrete metadata fixture: a root package depending on pyo3 with no
abi3 marker among its feature flags. -/
def metaNoAbi3 : Metadata :=
  ⟨some ⟨[⟨"pyo3", ["foo", "bar"]⟩]⟩⟩

/-- Concrete metadata fixture: a root package with no pyo3 dependency. -/
def metaNoPyo3 : Metadata :=
  ⟨some ⟨[⟨"serde", ["derive"]⟩]⟩⟩

/-- Concrete metadata fixture: a root package whose pyo3 dependency
carries an abi3-py marker with a non-numeric suffix next to a numeric
one. -/
def metaBadSuffix : Metadata :=
  ⟨some ⟨[⟨"pyo3", ["abi3-pyfoo", "abi3-py37"]⟩]⟩⟩

/-- Concrete metadata fixture: a root package whose pyo3 dependency
carries a single abi3-py marker with a non-numeric suffix and no other
abi3 marker. -/
def metaBadSingleton : Metadata :=
  ⟨some ⟨[⟨"pyo3", ["abi3-pyfoo"]⟩]⟩⟩

/-- Concrete writer fixture for the assembly loop: fails on the task
tagged bad, succeeds on every other task. -/
def mockWriter : WheelTask → Except PackagingError String :=
  fun t => if t.tag = "bad" then .error .addFile else .ok (t.tag ++ ".whl")

/-- Concrete interpreter fixture: renders a cp39 tag and the CPython 3.9
extension filename convention. -/
def interp39 : PythonInterpreter :=
  ⟨fun _ => "cp39-cp39-linux_x86_64", fun m => m ++ ".cpython-39.so"⟩

/-- Concrete interpreter fixture: renders a cp310 tag and the CPython
3.10 extension filename convention. -/
def interp310 : PythonInterpreter :=
  ⟨fun _ => "cp310-cp310-linux_x86_64", fun m => m ++ ".cpython-310.so"⟩

/-- Concrete metadata fixture: the same pyo3 dependency as metaPy3738
with its feature-flag list permuted. -/
def metaPy3837 : Metadata :=
  ⟨some ⟨[⟨"pyo3", ["abi3-py38", "extension-module", "abi3-py37"]⟩]⟩⟩

/-- Concrete metadata fixture: metadata with no root package. -/
def metaNoRoot : Metadata :=
  ⟨none⟩

/-- Concrete task fixture for the assembly loop. -/
def goodTask1 : WheelTask :=
  ⟨"cp37-abi3-linux_x86_64", "mymod.so"⟩

/-- Concrete task fixture the mockWriter rejects. -/
def badTask : WheelTask :=
  ⟨"bad", "mymod.so"⟩

/-- Concrete task fixture placed after the failing task. -/
def goodTask2 : WheelTask :=
  ⟨"cp38-abi3-linux_x86_64", "mymod.so"⟩

/-- The key computation fails exactly when some collected version string
is not a valid u32. -/
theorem abi3Keyed_eq_none_iff (vs : List String) :
    abi3Keyed vs = none ↔ ∃ v ∈ vs, parseU32 v = none := by
  induction vs with
  | nil => simp [abi3Keyed]
  | cons v vs ih =>
    cases h : parseU32 v with
    | none => simp [abi3Keyed, h]
    | some n => simp [abi3Keyed, h, Option.map_eq_none', ih]

/-- When the key computation succeeds, it pairs every collected version
string with its parsed value, in order. -/
theorem abi3Keyed_eq_some (vs : List String) (k : List (Nat × String))
    (h : abi3Keyed vs = some k) :
    k = vs.filterMap (fun v => (parseU32 v).map (fun n => (n, v))) := by
  induction vs generalizing k with
  | nil =>
    simp only [abi3Keyed, Option.some.injEq] at h
    simp [← h]
  | cons v vs ih =>
    cases hp : parseU32 v with
    | none => simp [abi3Keyed, hp] at h
    | some n =>
      simp only [abi3Keyed, hp] at h
      cases hk : abi3Keyed vs with
      | none => rw [hk] at h; simp at h
      | some k2 =>
        rw [hk] at h
        simp only [Option.map_some', Option.some.injEq] at h
        rw [← h, List.filterMap_cons, hp]
        simp [ih k2 hk]

/-- On canonical decimal tokens the key computation succeeds and keys
each token with its numeric value. -/
theorem abi3Keyed_canonical (ns : List Nat)
    (h : ∀ n ∈ ns, parseU32 (toString n) = some n) :
    abi3Keyed (ns.map (fun n => toString n)) =
      some (ns.map (fun n => (n, toString n))) := by
  induction ns with
  | nil => simp [abi3Keyed]
  | cons n ns ih =>
    have hn := h n (by simp)
    have hrest := ih (fun m hm => h m (by simp [hm]))
    simp [abi3Keyed, hn, hrest]

/-- When every collected token has a computable key, the sort with its
length guard coincides with sorting the keyed pairs and dropping the
keys (a slice of length below two is already sorted and equal to the
key-dropped sort of its keyed form). -/
theorem sortByKeyU32_eq_of_keyed (vs : List String)
    (keyed : List (Nat × String)) (h : abi3Keyed vs = some keyed) :
    sortByKeyU32 vs =
      .ok ((keyed.insertionSort versionLE).map Prod.snd) := by
  rw [sortByKeyU32]
  split
  · rename_i hlen
    cases vs with
    | nil =>
      simp only [abi3Keyed, Option.some.injEq] at h
      rw [← h]
      rfl
    | cons v rest =>
      cases rest with
      | nil =>
        cases hp : parseU32 v with
        | none => simp [abi3Keyed, hp] at h
        | some n =>
          simp only [abi3Keyed, hp, Option.map_some', Option.some.injEq]
            at h
          rw [← h]
          rfl
      | cons w rest2 =>
        simp only [List.length_cons] at hlen
        omega
  · rw [h]

/-- The head of the stable sort is an element of the input that is
minimal for the numeric key. -/
theorem insertionSort_head_min (k : List (Nat × String)) (x : Nat × String)
    (rest : List (Nat × String))
    (h : k.insertionSort versionLE = x :: rest) :
    x ∈ k ∧ ∀ p ∈ k, x.1 ≤ p.1 := by
  have hperm := List.perm_insertionSort versionLE k
  have hsorted := List.sorted_insertionSort versionLE k
  rw [h] at hperm hsorted
  refine ⟨hperm.subset (List.mem_cons_self x rest), fun p hp => ?_⟩
  rcases List.mem_cons.mp (hperm.symm.subset hp) with h1 | h2
  · rw [h1]
  · exact List.rel_of_sorted_cons hsorted p h2

/-- C1: for every metadata whose pyo3 dependency's feature flags carry
as abi3 markers exactly the canonical decimal tokens of the numbers in
ns (the bare token abi3 contributing the token "3"), with ns non-empty,
the Manifest ABI Tagger returns the tag cp<V>-abi3-linux_x86_64 where V
is the minimum of ns. -/
theorem c1_min_version_tag
    (m : Metadata) (p : Package) (d : Dependency) (ns : List Nat) (V : Nat)
    (hm : m.root_package = some p)
    (hd : p.dependencies.find? (fun pkg => pkg.name == "pyo3") = some d)
    (hts : d.features.filterMap parse_abi3 = ns.map (fun n => toString n))
    (hparse : ∀ n ∈ ns, parseU32 (toString n) = some n)
    (hVmem : V ∈ ns) (hVmin : ∀ n ∈ ns, V ≤ n) :
    get_tag_from_cargo_metadata m =
      .ok ("cp" ++ toString V ++ "-abi3-linux_x86_64") := by
  have hkeyed := abi3Keyed_canonical ns hparse
  have hsort := sortByKeyU32_eq_of_keyed _ _ hkeyed
  simp only [get_tag_from_cargo_metadata, hm, hd, tagOfFeatures, hts, hsort]
  cases hs : (ns.map (fun n => (n, toString n))).insertionSort versionLE with
  | nil =>
    exfalso
    have hperm := List.perm_insertionSort versionLE (ns.map (fun n => (n, toString n)))
    rw [hs] at hperm
    have hnil := hperm.symm.eq_nil
    have : (V, toString V) ∈ ns.map (fun n => (n, toString n)) :=
      List.mem_map.mpr ⟨V, hVmem, rfl⟩
    rw [hnil] at this
    exact List.not_mem_nil _ this
  | cons x rest =>
    obtain ⟨hxmem, hxmin⟩ := insertionSort_head_min _ x rest hs
    obtain ⟨n, hn, hxeq⟩ := List.mem_map.mp hxmem
    have hVle : V ≤ x.1 := by
      have : x.1 = n := by rw [← hxeq]
      rw [this]
      exact hVmin n hn
    have hleV : x.1 ≤ V :=
      hxmin (V, toString V) (List.mem_map.mpr ⟨V, hVmem, rfl⟩)
    have hx1 : x.1 = V := Nat.le_antisymm hleV hVle
    have hx2 : x.2 = toString V := by
      rw [← hxeq] at hx1 ⊢
      simp only at hx1 ⊢
      rw [hx1]
    simp [hx2]

/-- Witness for C1 at the fixture with flags
["extension-module", "abi3-py37", "abi3-py38"]. -/
theorem c1_min_version_tag_witness :
    get_tag_from_cargo_metadata metaPy3738 =
      .ok "cp37-abi3-linux_x86_64" := by
  have h := c1_min_version_tag metaPy3738
      ⟨[⟨"pyo3", ["extension-module", "abi3-py37", "abi3-py38"]⟩]⟩
      ⟨"pyo3", ["extension-module", "abi3-py37", "abi3-py38"]⟩
      [37, 38] 37 rfl (by decide) (by decide) (by decide) (by decide)
      (by decide)
  exact h.trans rfl

/-- C2: parse_abi3 maps the exact token abi3 to some "3"; maps any token
whose first seven characters are abi3-py to some of the remaining
suffix, verbatim, with no numeric check at parse time; and maps every
other token to none (ignored, not an error). -/
theorem c2_parse_abi3_cases :
    parse_abi3 "abi3" = some "3" ∧
    (∀ s : String, s.data.take 7 = "abi3-py".data →
      parse_abi3 s = some (String.mk (s.data.drop 7))) ∧
    (∀ s : String, s ≠ "abi3" → s.data.take 7 ≠ "abi3-py".data →
      parse_abi3 s = none) := by
  refine ⟨rfl, fun s hs => ?_, fun s h1 h2 => ?_⟩
  · have hne : s ≠ "abi3" := by
      intro he
      rw [he] at hs
      exact absurd hs (by decide)
    simp [parse_abi3, hne, hs]
  · simp [parse_abi3, h1, h2]

/-- Witness for C2: a marker token, a non-numeric abi3-py token, and an
unrelated token. -/
theorem c2_parse_abi3_cases_witness :
    parse_abi3 "abi3" = some "3" ∧ parse_abi3 "abi3-pyfoo" = some "foo" ∧
      parse_abi3 "serde" = none := by
  refine ⟨c2_parse_abi3_cases.1, ?_,
    c2_parse_abi3_cases.2.2 "serde" (by decide) (by decide)⟩
  exact (c2_parse_abi3_cases.2.1 "abi3-pyfoo" (by decide)).trans (by decide)

/-- C4: for metadata whose root package has no dependency named pyo3,
the whole manifest-driven path fails with the missing-dependency error,
so no WheelTask is produced and the wheel writer is never invoked. -/
theorem c4_missing_pyo3
    (w : WheelTask → Except PackagingError String) (module_name : String)
    (m : Metadata) (p : Package)
    (hm : m.root_package = some p)
    (hnone : ∀ d ∈ p.dependencies, d.name ≠ "pyo3") :
    manifestMain w module_name m = .error .missingPyo3 := by
  have hf : p.dependencies.find? (fun pkg => pkg.name == "pyo3") = none := by
    rw [List.find?_eq_none]
    intro d hd
    simpa using hnone d hd
  simp [manifestMain, manifestTasks, get_tag_from_cargo_metadata, hm, hf,
    Except.map]

/-- Witness for C4 at the fixture whose only dependency is serde. -/
theorem c4_missing_pyo3_witness :
    manifestMain mockWriter "mymod" metaNoPyo3 = .error .missingPyo3 :=
  c4_missing_pyo3 mockWriter "mymod" metaNoPyo3 ⟨[⟨"serde", ["derive"]⟩]⟩
    rfl (by decide)

/-- C5: when no feature flag of the pyo3 dependency parses as an abi3
marker, the Manifest ABI Tagger fails rather than returning a tag. -/
theorem c5_no_abi3_flags
    (m : Metadata) (p : Package) (d : Dependency)
    (hm : m.root_package = some p)
    (hd : p.dependencies.find? (fun pkg => pkg.name == "pyo3") = some d)
    (hf : d.features.filterMap parse_abi3 = []) :
    get_tag_from_cargo_metadata m = .error .noAbi3Flags := by
  simp [get_tag_from_cargo_metadata, hm, hd, tagOfFeatures, hf, sortByKeyU32]

/-- Witness for C5 at the fixture with flags ["foo", "bar"]. -/
theorem c5_no_abi3_flags_witness :
    get_tag_from_cargo_metadata metaNoAbi3 = .error .noAbi3Flags :=
  c5_no_abi3_flags metaNoAbi3 ⟨[⟨"pyo3", ["foo", "bar"]⟩]⟩
    ⟨"pyo3", ["foo", "bar"]⟩ rfl (by decide) (by decide)

/-- C6 counterexample: with flags ["abi3-pyfoo"] exactly one abi3 token
("foo", non-numeric) is collected; a one-element slice is returned by
the sort without its key closure ever being invoked, so the program
returns the tag cpfoo-abi3-linux_x86_64 instead of failing — refuting
the claim that any non-numeric collected token makes the tagger fail at
the sorting stage. -/
theorem c6_counterexample :
    get_tag_from_cargo_metadata metaBadSingleton =
      .ok "cpfoo-abi3-linux_x86_64" ∧
      get_tag_from_cargo_metadata metaBadSingleton ≠
        .error .nonNumericVersion := by
  refine ⟨rfl, fun h => ?_⟩
  rw [show get_tag_from_cargo_metadata metaBadSingleton =
    .ok "cpfoo-abi3-linux_x86_64" from rfl] at h
  exact Except.noConfusion h

/-- C6 amended: collected abi3 tokens are keyed by their value parsed as
an unsigned 32-bit integer during sorting, and when at least two tokens
are collected, any non-numeric collected token makes the Manifest ABI
Tagger fail at the sorting stage instead of returning a tag (a single
collected token is used verbatim, its key never evaluated). -/
theorem c6_non_numeric_fails
    (m : Metadata) (p : Package) (d : Dependency) (v : String)
    (hm : m.root_package = some p)
    (hd : p.dependencies.find? (fun pkg => pkg.name == "pyo3") = some d)
    (hv : v ∈ d.features.filterMap parse_abi3)
    (hbad : parseU32 v = none)
    (hlen : 2 ≤ (d.features.filterMap parse_abi3).length) :
    get_tag_from_cargo_metadata m = .error .nonNumericVersion := by
  have hk : abi3Keyed (d.features.filterMap parse_abi3) = none :=
    (abi3Keyed_eq_none_iff _).mpr ⟨v, hv, hbad⟩
  simp only [get_tag_from_cargo_metadata, hm, hd, tagOfFeatures]
  rw [sortByKeyU32, if_neg (by omega), hk]

/-- Witness for amended C6 at the fixture with flags
["abi3-pyfoo", "abi3-py37"]: two tokens are collected and the collected
token "foo" is not numeric. -/
theorem c6_non_numeric_fails_witness :
    get_tag_from_cargo_metadata metaBadSuffix = .error .nonNumericVersion :=
  c6_non_numeric_fails metaBadSuffix
    ⟨[⟨"pyo3", ["abi3-pyfoo", "abi3-py37"]⟩]⟩
    ⟨"pyo3", ["abi3-pyfoo", "abi3-py37"]⟩ "foo" rfl (by decide) (by decide)
    (by decide) (by decide)

/-- C10: for every metadata value with no root package, the
manifest-driven path fails with the root-package error — before any
dependency lookup, feature parsing, or wheel assembly can happen. -/
theorem c10_no_root_package
    (w : WheelTask → Except PackagingError String) (module_name : String)
    (m : Metadata) (hm : m.root_package = none) :
    manifestMain w module_name m = .error .noRootPackage := by
  simp [manifestMain, manifestTasks, get_tag_from_cargo_metadata, hm,
    Except.map]

/-- Witness for C10 at the rootless fixture. -/
theorem c10_no_root_package_witness :
    manifestMain mockWriter "mymod" metaNoRoot = .error .noRootPackage :=
  c10_no_root_package mockWriter "mymod" metaNoRoot rfl

/-- C3: the wheel loop processes its task list strictly in order with
stop-at-first-failure semantics: if the writer finalizes every task of
pre (yielding paths) and fails on t, the run over pre ++ t :: post
invoked the writer exactly on pre ++ [t], left exactly the wheels of
pre finalized (not rolled back), and terminated with the failure — the
writer is never invoked on the tasks of post. -/
theorem c3_stop_at_first_failure
    (w : WheelTask → Except PackagingError String) (pre post : List WheelTask)
    (t : WheelTask) (paths : List String) (e : PackagingError)
    (hpre : runTasks w pre = ⟨pre, paths, none⟩)
    (ht : w t = Except.error e) :
    runTasks w (pre ++ t :: post) = ⟨pre ++ [t], paths, some e⟩ := by
  induction pre generalizing paths with
  | nil =>
    simp only [runTasks, AssemblyResult.mk.injEq] at hpre
    rw [← hpre.2.1]
    simp [runTasks, ht]
  | cons q qs ih =>
    cases hq : w q with
    | error e' =>
      rw [runTasks, hq] at hpre
      simp at hpre
    | ok p0 =>
      cases hr : runTasks w qs with
      | mk inv fin out =>
        rw [runTasks, hq, hr] at hpre
        simp only [AssemblyResult.mk.injEq, List.cons.injEq, true_and] at hpre
        obtain ⟨hinv, hfin, hout⟩ := hpre
        subst hinv
        subst hout
        have hrec := ih fin hr
        rw [List.cons_append, runTasks, hq, hrec, ← hfin]
        rfl

/-- Witness for C3: the mock writer finalizes the first task, fails on
the second, and is never invoked on the third. -/
theorem c3_stop_at_first_failure_witness :
    runTasks mockWriter [goodTask1, badTask, goodTask2] =
      ⟨[goodTask1, badTask], ["cp37-abi3-linux_x86_64.whl"],
        some .addFile⟩ := by
  have h := c3_stop_at_first_failure mockWriter [goodTask1] [goodTask2]
      badTask ["cp37-abi3-linux_x86_64.whl"] .addFile rfl rfl
  exact h

/-- C7: the interpreter-probe path produces exactly one WheelTask per
discovered interpreter — tag rendered by the interpreter under the
no-manylinux policy, filename from its library-name convention for the
given module name — in exactly discovery order, with no re-sorting,
deduplication, or filtering. -/
theorem c7_one_task_per_interpreter
    (module_name : String) (l : List PythonInterpreter) (k : Nat)
    (_hne : l ≠ []) :
    (probeTasks module_name l).length = l.length ∧
      (probeTasks module_name l)[k]? =
        (l[k]?).map (fun i =>
          WheelTask.mk (i.get_tag Manylinux.off)
            (i.get_library_name module_name)) := by
  constructor
  · simp [probeTasks]
  · simp [probeTasks]

/-- Witness for C7 on a two-interpreter discovery list. -/
theorem c7_one_task_per_interpreter_witness :
    (probeTasks "mymod" [interp39, interp310]).length = 2 ∧
      (probeTasks "mymod" [interp39, interp310])[1]? =
        some ⟨"cp310-cp310-linux_x86_64", "mymod.cpython-310.so"⟩ := by
  have h := c7_one_task_per_interpreter "mymod" [interp39, interp310] 1
      (by simp)
  exact ⟨h.1, h.2.trans rfl⟩

/-- C8 counterexample: a discovery collaborator that succeeds with an
empty interpreter list does NOT make the interpreter-probe path fail —
the invocation succeeds and produces zero WheelTasks, contradicting the
claim that an empty discovery result yields a DiscoveryError. -/
theorem c8_counterexample :
    probeMain "mymod" (Except.ok []) = Except.ok ([] : List WheelTask) ∧
      probeMain "mymod" (Except.ok []) ≠
        Except.error DiscoveryError.findAllFailed := by
  refine ⟨rfl, fun h => ?_⟩
  rw [show probeMain "mymod" (Except.ok []) =
    Except.ok ([] : List WheelTask) from rfl] at h
  exact Except.noConfusion h

/-- C8 amended: the interpreter-probe path fails with a DiscoveryError
exactly when the discovery collaborator itself fails; an empty
discovery result is a successful invocation producing zero
WheelTasks. -/
theorem c8_discovery_failure_amended (module_name : String)
    (e : DiscoveryError) :
    probeMain module_name (Except.error e) = Except.error e ∧
      probeMain module_name (Except.ok []) =
        Except.ok ([] : List WheelTask) :=
  ⟨rfl, rfl⟩

/-- C9 (implicit): when the abi3 tokens collected from the pyo3 feature
flags parse to pairwise distinct u32 values, the tag resolved by the
Manifest ABI Tagger is invariant under any permutation of the
feature-flag list — the result depends only on which tokens are
present, not on their order. -/
theorem c9_perm_invariant
    (m m' : Metadata) (p p' : Package) (d d' : Dependency)
    (k : List (Nat × String))
    (hm : m.root_package = some p) (hm' : m'.root_package = some p')
    (hd : p.dependencies.find? (fun pkg => pkg.name == "pyo3") = some d)
    (hd' : p'.dependencies.find? (fun pkg => pkg.name == "pyo3") = some d')
    (hperm : d.features.Perm d'.features)
    (hk : abi3Keyed (d.features.filterMap parse_abi3) = some k)
    (hnodup : (k.map Prod.fst).Nodup) :
    get_tag_from_cargo_metadata m = get_tag_from_cargo_metadata m' := by
  have hts : (d.features.filterMap parse_abi3).Perm
      (d'.features.filterMap parse_abi3) := hperm.filterMap parse_abi3
  have hk'ne : abi3Keyed (d'.features.filterMap parse_abi3) ≠ none := by
    rw [ne_eq, abi3Keyed_eq_none_iff]
    rintro ⟨v, hv, hbad⟩
    have hv2 : v ∈ d.features.filterMap parse_abi3 := hts.symm.subset hv
    have : abi3Keyed (d.features.filterMap parse_abi3) = none :=
      (abi3Keyed_eq_none_iff _).mpr ⟨v, hv2, hbad⟩
    rw [hk] at this
    exact Option.noConfusion this
  obtain ⟨k', hk'⟩ := Option.ne_none_iff_exists'.mp hk'ne
  have hkk : k.Perm k' := by
    rw [abi3Keyed_eq_some _ _ hk, abi3Keyed_eq_some _ _ hk']
    exact hts.filterMap _
  have hsort := sortByKeyU32_eq_of_keyed _ _ hk
  have hsort' := sortByKeyU32_eq_of_keyed _ _ hk'
  simp only [get_tag_from_cargo_metadata, hm, hm', hd, hd', tagOfFeatures,
    hsort, hsort']
  cases hs : k.insertionSort versionLE with
  | nil =>
    have hknil : k = [] := by
      have hp := List.perm_insertionSort versionLE k
      rw [hs] at hp
      exact hp.symm.eq_nil
    have hk'nil : k' = [] := (hknil ▸ hkk).symm.eq_nil
    rw [hk'nil]
    simp
  | cons x rx =>
    cases hs' : k'.insertionSort versionLE with
    | nil =>
      exfalso
      have hp' := List.perm_insertionSort versionLE k'
      rw [hs'] at hp'
      have hk'nil : k' = [] := hp'.symm.eq_nil
      have hknil : k = [] := (hk'nil ▸ hkk).eq_nil
      rw [hknil] at hs
      simp [List.insertionSort] at hs
    | cons y ry =>
      obtain ⟨hxmem, hxmin⟩ := insertionSort_head_min _ x rx hs
      obtain ⟨hymem', hymin'⟩ := insertionSort_head_min _ y ry hs'
      have hymem : y ∈ k := hkk.symm.subset hymem'
      have hxmem' : x ∈ k' := hkk.subset hxmem
      have hxy : x.1 = y.1 :=
        Nat.le_antisymm (hxmin y hymem) (hymin' x hxmem')
      have hxeqy : x = y :=
        List.inj_on_of_nodup_map hnodup hxmem hymem hxy
      rw [hxeqy]
      rfl

/-- Witness for C9: the two fixtures carry permuted feature-flag lists
with distinct parsed values 37 and 38, and resolve to the same tag. -/
theorem c9_perm_invariant_witness :
    get_tag_from_cargo_metadata metaPy3738 =
      get_tag_from_cargo_metadata metaPy3837 :=
  c9_perm_invariant metaPy3738 metaPy3837
    ⟨[⟨"pyo3", ["extension-module", "abi3-py37", "abi3-py38"]⟩]⟩
    ⟨[⟨"pyo3", ["abi3-py38", "extension-module", "abi3-py37"]⟩]⟩
    ⟨"pyo3", ["extension-module", "abi3-py37", "abi3-py38"]⟩
    ⟨"pyo3", ["abi3-py38", "extension-module", "abi3-py37"]⟩
    [(37, "37"), (38, "38")]
    rfl rfl (by decide) (by decide) (by decide) (by decide) (by decide)

end MaturinNix
